import Mathlib

/-!
Shallow embedding of the charge-history reconstruction core of
`src/zaptec.py` (the `time_floor` helper, the `ChargeHistoryParser`
class and its `UserChargeHistory` output structure).

Modelling conventions:
* A Python `datetime` is represented by the number of microseconds since
  `datetime.min` (0001-01-01T00:00), as a `Nat`.  All datetimes flowing
  through the parser are UTC (naive timestamps are reinterpreted as UTC
  by `fallback_utc`, which is therefore the identity here), so a single
  microsecond count captures the value.  A `timedelta` is an `Int`
  number of microseconds.
* Python floats are modelled as exact rationals `ℚ`; the float literal
  `0.0001` of the assertions becomes `1 / 10000`.
* A Python `dict` is an insertion-ordered association list; assignment
  overwrites in place when the key exists and appends otherwise, exactly
  like `dict.__setitem__`.
* Python exceptions become the `Except` monad with one constructor per
  exception class that the code can raise: `KeyError` (missing dict
  field), `RuntimeError` (with its message; the bare `raise RuntimeError`
  of the bucket-collision check carries the empty message),
  `AssertionError`, `ZeroDivisionError`, and the
  `Exception(f"Error with id {id}")` wrapper raised by the
  `except KeyError` handler in `parse`.
-/

/-- Error values corresponding to the exceptions `ChargeHistoryParser`
can raise while parsing. -/
inductive ParseError : Type where
  | keyError (key : String)
  | runtimeError (msg : String)
  | assertionError
  | zeroDivisionError
  | wrappedError (msg : String)
deriving DecidableEq

/-- Lookup in an insertion-ordered association list, like `dict.get`. -/
def dictGet {α β : Type} [BEq α] : List (α × β) → α → Option β
  | [], _ => none
  | (k1, v1) :: rest, k => if k1 == k then some v1 else dictGet rest k

/-- Key-membership test, like Python's `key in dict`. -/
def dictHasKey {α β : Type} [BEq α] (d : List (α × β)) (k : α) : Bool :=
  (dictGet d k).isSome

/-- Dict assignment `d[k] = v`: overwrite in place when the key exists,
append otherwise. -/
def dictSet {α β : Type} [BEq α] : List (α × β) → α → β → List (α × β)
  | [], k, v => [(k, v)]
  | (k1, v1) :: rest, k, v =>
      if k1 == k then (k, v) :: rest else (k1, v1) :: dictSet rest k v

/-- Model of `time_floor` from `zaptec.py`: `seconds` is
`(time.replace(tzinfo=None) - datetime.min).seconds`, i.e. the whole
seconds of the time of day; the result subtracts the remainder of those
seconds modulo `floor_to_seconds` together with the microsecond
component.  (`timedelta.seconds` never includes microseconds.) -/
def time_floor (time : Nat) (floor_to_seconds : Nat := 15 * 60) : Nat :=
  let seconds := time / 1000000 % 86400
  let rounding := seconds / floor_to_seconds * floor_to_seconds
  time + rounding * 1000000 - seconds * 1000000 - time % 1000000

/-- Model of `fallback_utc` from `zaptec.py`, which reinterprets a naive datetime as
UTC and leaves aware datetimes alone.  In this embedding every datetime
is already a UTC microsecond count, so it is the identity. -/
def fallback_utc (time : Nat) : Nat :=
  time

/-- One entry of a session's `EnergyDetails` list, with the
`Timestamp` already decoded by `datetime.fromisoformat`. -/
structure EnergyDetail : Type where
  timestamp : Nat
  energy : ℚ
deriving DecidableEq

/-- The `UserChargeHistory` dataclass of `zaptec.py`. -/
structure UserChargeHistory : Type where
  user_name : String
  full_name : String
  consumption : List (Nat × ℚ)
deriving DecidableEq

/-- One element of the input document's `Data` array.  Each field is
`none` when the corresponding JSON key is absent; numeric strings and
ISO timestamps are taken as already decoded, since none of the verified
claims concern decoding failures. -/
structure SessionItem : Type where
  id : Option String
  userUserName : Option String
  userFullName : Option String
  energy : Option ℚ
  energyDetails : Option (List EnergyDetail)
  startDateTime : Option Nat
  endDateTime : Option Nat
deriving DecidableEq

/-- Loop body of `_update_history_with_energy_details`: walks the
enumerated `EnergyDetails`, keeping positive sub-readings, choosing the
bucket (`floor(timestamp)` for the last index, `floor(timestamp)` minus
15 minutes otherwise), raising a bare `RuntimeError` on a bucket
collision, and accumulating `detail_energy_total` together with the
list of (bucket, energy) pairs this session assigned. -/
def energy_details_loop (n : Nat) (i : Nat) (details : List EnergyDetail)
    (cons assigned : List (Nat × ℚ)) (total : ℚ) :
    Except ParseError (List (Nat × ℚ) × List (Nat × ℚ) × ℚ) :=
  match details with
  | [] => .ok (cons, assigned, total)
  | d :: rest =>
    if d.energy > 0 then
      let consumption_start :=
        if i == n - 1 then time_floor d.timestamp
        else time_floor d.timestamp - 900000000
      if dictHasKey cons consumption_start then .error (.runtimeError "")
      else energy_details_loop n (i + 1) rest
        (dictSet cons consumption_start d.energy)
        (assigned ++ [(consumption_start, d.energy)]) (total + d.energy)
    else energy_details_loop n (i + 1) rest cons assigned total

/-- Model of `_update_history_with_energy_details` (Mode A): runs the loop on the
session's sub-readings and then checks the
`assert abs(session_energy - detail_energy_total) < 0.0001`.  Returns
the updated history together with the (bucket, energy) pairs this
session assigned. -/
def update_history_with_energy_details (history : UserChargeHistory)
    (energy_details : List EnergyDetail) (session_energy : ℚ) :
    Except ParseError (UserChargeHistory × List (Nat × ℚ)) :=
  match energy_details_loop energy_details.length 0 energy_details
      history.consumption [] 0 with
  | .error e => .error e
  | .ok (cons, assigned, detail_energy_total) =>
    if |session_energy - detail_energy_total| < 1 / 10000 then
      .ok (⟨history.user_name, history.full_name, cons⟩, assigned)
    else .error .assertionError

/-- Model of `ChargeHistoryParser._duration`: overlap of the 15-minute window
starting at `time` with `[start_time, end_time]`, clamped at both ends
exactly as in the source (`start = time if time > start_time else
start_time`, `end = time + 15min if time + 15min < end_time else
end_time`), as a signed microsecond count. -/
def duration (time start_time end_time : Nat) : Int :=
  ((if time + 900000000 < end_time then time + 900000000 else end_time : Nat) : Int)
    - ((if time > start_time then time else start_time : Nat) : Int)

/-- The `while time < end_time` loop of
`_update_history_with_session_energy` (Mode B).  Each iteration divides
the clamped overlap by the total charge duration (`ZeroDivisionError`
when that duration is zero, as in Python), assigns
`ratio * session_energy` to the bucket with no collision check
(plain dict assignment), and steps 15 minutes forward. -/
def session_energy_loop (session_energy : ℚ) (start_time end_time : Nat)
    (time : Nat) (cons assigned : List (Nat × ℚ)) (total : ℚ) :
    Except ParseError (List (Nat × ℚ) × List (Nat × ℚ) × ℚ) :=
  if time < end_time then
    if (end_time : Int) - (start_time : Int) = 0 then
      .error .zeroDivisionError
    else
      let energy : ℚ :=
        ((duration time start_time end_time : Int) : ℚ)
          / (((end_time : Int) - (start_time : Int) : Int) : ℚ) * session_energy
      session_energy_loop session_energy start_time end_time (time + 900000000)
        (dictSet cons time energy) (assigned ++ [(time, energy)]) (total + energy)
  else
    .ok (cons, assigned, total)
termination_by end_time - time
decreasing_by omega

/-- Model of `_update_history_with_session_energy` (Mode B): walks 15-minute
buckets from `time_floor(start_time)` while the bucket start is before
`end_time`, then checks the
`assert abs(session_energy - detail_energy_total) < 0.0001`. -/
def update_history_with_session_energy (history : UserChargeHistory)
    (session_energy : ℚ) (start_time end_time : Nat) :
    Except ParseError (UserChargeHistory × List (Nat × ℚ)) :=
  match session_energy_loop session_energy start_time end_time
      (time_floor start_time) history.consumption [] 0 with
  | .error e => .error e
  | .ok (cons, assigned, detail_energy_total) =>
    if |session_energy - detail_energy_total| < 1 / 10000 then
      .ok (⟨history.user_name, history.full_name, cons⟩, assigned)
    else .error .assertionError

/-- The `except KeyError` handler of `ChargeHistoryParser.parse`: a
`KeyError` escaping the per-item body is replaced by
`Exception(f"Error with id {id}")`; every other outcome passes
through. -/
def wrap_key_errors {α : Type} (id : String) :
    Except ParseError α → Except ParseError α
  | .error (.keyError _) => .error (.wrappedError ("Error with id " ++ id))
  | other => other

/-- The session id used in diagnostics:
`item["Id"] if "Id" in item else "<unknown-id>"`. -/
def item_id (item : SessionItem) : String :=
  item.id.getD "<unknown-id>"

/-- The anonymous-session handling at the top of the `parse` loop body
(outside the `try`): a missing `Energy` raises a raw `KeyError`;
positive energy raises the descriptive `RuntimeError`; otherwise the
item is skipped and the running result is returned unchanged. -/
def process_anonymous (result : List (String × UserChargeHistory))
    (item : SessionItem) :
    Except ParseError (List (String × UserChargeHistory)) :=
  match item.energy with
  | none => .error (.keyError "Energy")
  | some energy =>
    if energy > 0 then
      .error (.runtimeError
        ("Found charging session " ++ item_id item ++ " without user identification!"))
    else .ok result

/-- The mode dispatch of the `parse` loop body: Mode A when
`EnergyDetails` is present, otherwise Mode B on
`StartDateTime`/`EndDateTime` (raising `KeyError` when those are
missing), exactly as the `if "EnergyDetails" in item` branch. -/
def dispatch_session (history : UserChargeHistory) (item : SessionItem)
    (session_energy : ℚ) :
    Except ParseError (UserChargeHistory × List (Nat × ℚ)) :=
  match item.energyDetails with
  | some energy_details =>
    update_history_with_energy_details history energy_details session_energy
  | none =>
    match item.startDateTime with
    | none => .error (.keyError "StartDateTime")
    | some start_time =>
      match item.endDateTime with
      | none => .error (.keyError "EndDateTime")
      | some end_time =>
        update_history_with_session_energy history session_energy
          (fallback_utc start_time) (fallback_utc end_time)

/-- The body of the `try` block of the `parse` loop for a session that
carries `UserUserName`, in the source's evaluation order: the eagerly
evaluated `UserFullName` default argument of `result.get` (read on
every session, raising `KeyError` when absent), then `Energy`, then the
mode dispatch, then `result[user_name] = history`. -/
def process_user (result : List (String × UserChargeHistory))
    (item : SessionItem) (user_name : String) :
    Except ParseError (List (String × UserChargeHistory)) :=
  match item.userFullName with
  | none => .error (.keyError "UserFullName")
  | some full_name =>
    match item.energy with
    | none => .error (.keyError "Energy")
    | some session_energy =>
      match dispatch_session ((dictGet result user_name).getD
          ⟨user_name, full_name, []⟩) item session_energy with
      | .error e => .error e
      | .ok updated => .ok (dictSet result user_name updated.1)

/-- Body of the `for item in data_item` loop of
`ChargeHistoryParser.parse` for a single item, acting on the running
`result` map: the `UserUserName` guard routes to the anonymous handling
or to the `try` block, whose `KeyError` failures the `except KeyError`
handler wraps with the session id. -/
def process_item (result : List (String × UserChargeHistory))
    (item : SessionItem) :
    Except ParseError (List (String × UserChargeHistory)) :=
  match item.userUserName with
  | none => process_anonymous result item
  | some user_name =>
    wrap_key_errors (item_id item) (process_user result item user_name)


/-- The `for item in data_item` loop of `ChargeHistoryParser.parse`,
threading the `result` dictionary through the items. -/
def parse_loop : List SessionItem → List (String × UserChargeHistory) →
    Except ParseError (List (String × UserChargeHistory))
  | [], result => .ok result
  | item :: rest, result =>
    match process_item result item with
    | .error e => .error e
    | .ok result1 => parse_loop rest result1

/-- Model of `ChargeHistoryParser.parse`: run the item loop on the document's
`Data` array and return `dict(sorted(result.items()))`, the result map
sorted by user name. -/
def parse (data : List SessionItem) :
    Except ParseError (List (String × UserChargeHistory)) :=
  match parse_loop data [] with
  | .error e => .error e
  | .ok result => .ok (List.insertionSort (fun a b => a.1 ≤ b.1) result)

/-- Builds the microsecond count of a UTC datetime from its proleptic
Gregorian day number (days since 0001-01-01, so 2023-12-01 is day
738854) and its hour and minute; used for concrete test inputs. -/
def utcTime (days hours minutes : Nat) : Nat :=
  (days * 86400 + hours * 3600 + minutes * 60) * 1000000

/-- Closed form of `time_floor` at the default 15-minute interval:
since `900` divides `86400`, flooring by time-of-day seconds is plain
flooring of the microsecond count to a multiple of 900 seconds. -/
theorem time_floor_eq (t : Nat) : time_floor t = t / 900000000 * 900000000 := by
  simp only [time_floor]
  omega

/-- C6: for every timestamp `t`, `time_floor t` (at the 900-second
interval) is the largest timestamp at most `t` that is a whole multiple
of 900 seconds from the day reference; it has zero seconds and
microseconds and its minute is in \x7b0, 15, 30, 45\x7d; and shifting the
input by whole days shifts the output by the same whole days, so the
flooring depends on the input only through its time of day. -/
theorem C6_time_floor_grid (t : Nat) :
    time_floor t ≤ t ∧
    time_floor t % 900000000 = 0 ∧
    (∀ m : Nat, m % 900000000 = 0 → m ≤ t → m ≤ time_floor t) ∧
    (time_floor t % 60000000 = 0 ∧
      (time_floor t / 60000000 % 60 = 0 ∨ time_floor t / 60000000 % 60 = 15 ∨
       time_floor t / 60000000 % 60 = 30 ∨ time_floor t / 60000000 % 60 = 45)) ∧
    (∀ d : Nat, time_floor (t + d * 86400000000) = time_floor t + d * 86400000000) := by
  refine ⟨?_, ?_, ?_, ⟨?_, ?_⟩, ?_⟩
  · simp only [time_floor_eq]; omega
  · simp only [time_floor_eq]; omega
  · intro m hm hle
    simp only [time_floor_eq]
    omega
  · simp only [time_floor_eq]; omega
  · simp only [time_floor_eq]; omega
  · intro d
    simp only [time_floor_eq]
    omega

theorem C6_time_floor_grid_witness :
    time_floor (utcTime 738854 10 20) ≤ utcTime 738854 10 20 ∧
    utcTime 738854 10 15 ≤ time_floor (utcTime 738854 10 20) ∧
    time_floor (utcTime 738854 10 20 + 5 * 86400000000)
      = time_floor (utcTime 738854 10 20) + 5 * 86400000000 :=
  ⟨(C6_time_floor_grid (utcTime 738854 10 20)).1,
   (C6_time_floor_grid (utcTime 738854 10 20)).2.2.1 (utcTime 738854 10 15)
     (by decide) (by decide),
   (C6_time_floor_grid (utcTime 738854 10 20)).2.2.2.2 5⟩

/-- C7: `time_floor` at the 900-second interval is idempotent. -/
theorem C7_time_floor_idempotent (t : Nat) :
    time_floor (time_floor t) = time_floor t := by
  simp only [time_floor_eq]
  omega

/-- Unfolding lemma for one executed iteration of the Mode B loop. -/
theorem session_energy_loop_step (session_energy : ℚ) (start_time end_time time : Nat)
    (cons assigned : List (Nat × ℚ)) (total : ℚ)
    (h1 : time < end_time) (h2 : (end_time : Int) - (start_time : Int) ≠ 0) :
    session_energy_loop session_energy start_time end_time time cons assigned total
    = session_energy_loop session_energy start_time end_time (time + 900000000)
        (dictSet cons time (((duration time start_time end_time : Int) : ℚ)
          / (((end_time : Int) - (start_time : Int) : Int) : ℚ) * session_energy))
        (assigned ++ [(time, ((duration time start_time end_time : Int) : ℚ)
          / (((end_time : Int) - (start_time : Int) : Int) : ℚ) * session_energy)])
        (total + ((duration time start_time end_time : Int) : ℚ)
          / (((end_time : Int) - (start_time : Int) : Int) : ℚ) * session_energy) := by
  rw [session_energy_loop]
  simp only [if_pos h1, if_neg h2]

/-- Unfolding lemma for the Mode B loop once the bucket start has
reached `end_time`. -/
theorem session_energy_loop_done (session_energy : ℚ) (start_time end_time time : Nat)
    (cons assigned : List (Nat × ℚ)) (total : ℚ) (h : ¬ time < end_time) :
    session_energy_loop session_energy start_time end_time time cons assigned total
    = .ok (cons, assigned, total) := by
  rw [session_energy_loop]
  simp only [if_neg h]

/-- Unfolding lemma for the Mode B loop when an iteration runs with a
zero total charge duration: the ratio computation divides by zero. -/
theorem session_energy_loop_zdiv (session_energy : ℚ) (start_time end_time time : Nat)
    (cons assigned : List (Nat × ℚ)) (total : ℚ)
    (h1 : time < end_time) (h2 : (end_time : Int) - (start_time : Int) = 0) :
    session_energy_loop session_energy start_time end_time time cons assigned total
    = .error .zeroDivisionError := by
  rw [session_energy_loop]
  simp only [if_pos h1, if_pos h2]

/-- The clamped `_duration` is `min (time + 15min) end - max time start`. -/
theorem duration_eq (time start_time end_time : Nat) :
    duration time start_time end_time
    = min ((time : Int) + 900000000) (end_time : Int)
        - max (time : Int) (start_time : Int) := by
  unfold duration
  split_ifs <;> push_cast <;> omega

theorem time_floor_le (t : Nat) : time_floor t ≤ t := by
  simp only [time_floor_eq]
  omega

theorem lt_time_floor_add (t : Nat) : t < time_floor t + 900000000 := by
  simp only [time_floor_eq]
  omega

/-- Invariant of the Mode B loop: when it completes normally, the final
`detail_energy_total` is the sum of the energies of all assigned
(bucket, energy) pairs. -/
theorem session_energy_loop_sum (session_energy : ℚ) (start_time end_time : Nat) :
    ∀ fuel time cons assigned total c a t1,
      end_time - time ≤ fuel →
      session_energy_loop session_energy start_time end_time time cons assigned total
        = .ok (c, a, t1) →
      total = (assigned.map Prod.snd).sum →
      t1 = (a.map Prod.snd).sum := by
  intro fuel
  induction fuel with
  | zero =>
    intro time cons assigned total c a t1 hf hok hinv
    rw [session_energy_loop_done _ _ _ _ _ _ _ (by omega)] at hok
    simp only [Except.ok.injEq, Prod.mk.injEq] at hok
    obtain ⟨rfl, rfl, rfl⟩ := hok
    exact hinv
  | succ fuel ih =>
    intro time cons assigned total c a t1 hf hok hinv
    by_cases h1 : time < end_time
    · by_cases h2 : (end_time : Int) - (start_time : Int) = 0
      · rw [session_energy_loop_zdiv _ _ _ _ _ _ _ h1 h2] at hok
        exact absurd hok (by simp)
      · rw [session_energy_loop_step _ _ _ _ _ _ _ h1 h2] at hok
        exact ih _ _ _ _ _ _ _ (by omega) hok (by simp [hinv])
    · rw [session_energy_loop_done _ _ _ _ _ _ _ h1] at hok
      simp only [Except.ok.injEq, Prod.mk.injEq] at hok
      obtain ⟨rfl, rfl, rfl⟩ := hok
      exact hinv

/-- When the session interval is nonempty and the current bucket starts
before `end_time` but less than 15 minutes before `start_time + 15min`,
the Mode B loop completes and adds exactly the remaining proportional
share `(end - max time start) / (end - start) * session_energy`. -/
theorem session_energy_loop_run (session_energy : ℚ) (start_time end_time : Nat)
    (hse : start_time < end_time) :
    ∀ fuel time cons assigned total,
      end_time - time ≤ fuel →
      time < end_time →
      start_time < time + 900000000 →
      ∃ c a,
        session_energy_loop session_energy start_time end_time time cons assigned total
        = .ok (c, a, total +
            (((end_time : Int) - max (time : Int) (start_time : Int) : Int) : ℚ)
              / (((end_time : Int) - (start_time : Int) : Int) : ℚ) * session_energy) := by
  have h2 : (end_time : Int) - (start_time : Int) ≠ 0 := by omega
  intro fuel
  induction fuel with
  | zero =>
    intro time cons assigned total hf h1 hs
    omega
  | succ fuel ih =>
    intro time cons assigned total hf h1 hs
    rw [session_energy_loop_step _ _ _ _ _ _ _ h1 h2]
    by_cases hnext : time + 900000000 < end_time
    · obtain ⟨c, a, hrun⟩ :=
        ih (time + 900000000) (dictSet cons time _) (assigned ++ [(time, _)]) _
          (by omega) hnext (by omega)
      refine ⟨c, a, ?_⟩
      rw [hrun]
      have hd : duration time start_time end_time
          = ((time : Int) + 900000000) - max (time : Int) (start_time : Int) := by
        rw [duration_eq]
        omega
      have hm : max ((time : Nat) + 900000000 : Nat) (start_time : Nat) = time + 900000000 := by
        omega
      have hmi : (max ((time + 900000000 : Nat) : Int) (start_time : Int))
          = (time : Int) + 900000000 := by
        push_cast
        omega
      rw [hmi, hd]
      have hsum : ((time : Int) + 900000000 - max (time : Int) (start_time : Int))
            + ((end_time : Int) - ((time : Int) + 900000000))
          = (end_time : Int) - max (time : Int) (start_time : Int) := by
        omega
      refine congrArg (fun z => Except.ok (c, a, z)) ?_
      rw [add_assoc]
      refine congrArg (fun z => total + z) ?_
      rw [← add_mul, div_add_div_same, ← Int.cast_add, hsum]
    · rw [session_energy_loop_done _ _ _ _ _ _ _ hnext]
      have hd : duration time start_time end_time
          = (end_time : Int) - max (time : Int) (start_time : Int) := by
        rw [duration_eq]
        omega
      rw [hd]
      exact ⟨_, _, rfl⟩

/-- Invariant of the Mode A loop: when it completes normally, the final
`detail_energy_total` is the sum of the energies of all assigned
(bucket, energy) pairs. -/
theorem energy_details_loop_sum (n : Nat) :
    ∀ (details : List EnergyDetail) (i : Nat) (cons assigned : List (Nat × ℚ))
      (total : ℚ) c a t1,
      energy_details_loop n i details cons assigned total = .ok (c, a, t1) →
      total = (assigned.map Prod.snd).sum →
      t1 = (a.map Prod.snd).sum := by
  intro details
  induction details with
  | nil =>
    intro i cons assigned total c a t1 hok hinv
    simp only [energy_details_loop, Except.ok.injEq, Prod.mk.injEq] at hok
    obtain ⟨rfl, rfl, rfl⟩ := hok
    exact hinv
  | cons d rest ih =>
    intro i cons assigned total c a t1 hok hinv
    rw [energy_details_loop] at hok
    by_cases hpos : d.energy > 0
    · rw [if_pos hpos] at hok
      by_cases hcol : dictHasKey cons (if i == n - 1 then time_floor d.timestamp
          else time_floor d.timestamp - 900000000) = true
      · simp only [hcol, if_true] at hok
        exact Except.noConfusion hok
      · simp only [hcol, if_false, Bool.false_eq_true] at hok
        exact ih _ _ _ _ _ _ _ hok (by simp [hinv])
    · rw [if_neg hpos] at hok
      exact ih _ _ _ _ _ _ _ hok hinv

/-- A positive sub-reading whose bucket is already present in the
consumption map makes the Mode A loop raise the bare `RuntimeError`. -/
theorem energy_details_loop_collision (n i : Nat) (d : EnergyDetail)
    (rest : List EnergyDetail) (cons assigned : List (Nat × ℚ)) (total : ℚ)
    (hpos : d.energy > 0)
    (hcol : dictHasKey cons (if i == n - 1 then time_floor d.timestamp
        else time_floor d.timestamp - 900000000) = true) :
    energy_details_loop n i (d :: rest) cons assigned total
      = .error (.runtimeError "") := by
  rw [energy_details_loop]
  rw [if_pos hpos]
  simp only [hcol, if_true]

/-- For a session interval of positive length, Mode B always completes:
the proportional shares sum exactly to `session_energy`, so the final
assertion holds, and the assigned energies sum to `session_energy`. -/
theorem update_history_with_session_energy_complete (history : UserChargeHistory)
    (session_energy : ℚ) (start_time end_time : Nat) (hse : start_time < end_time) :
    ∃ cons assigned,
      update_history_with_session_energy history session_energy start_time end_time
        = .ok (⟨history.user_name, history.full_name, cons⟩, assigned) ∧
      (assigned.map Prod.snd).sum = session_energy := by
  obtain ⟨c, a, hrun⟩ :=
    session_energy_loop_run session_energy start_time end_time hse
      (end_time - time_floor start_time) (time_floor start_time)
      history.consumption [] 0 le_rfl
      (lt_of_le_of_lt (time_floor_le start_time) hse)
      (lt_time_floor_add start_time)
  have hmax : max ((time_floor start_time : Nat) : Int) (start_time : Int)
      = (start_time : Int) := by
    have := time_floor_le start_time
    omega
  rw [hmax] at hrun
  have hD : (((end_time : Int) - (start_time : Int) : Int) : ℚ) ≠ 0 := by
    have h0 : (end_time : Int) - (start_time : Int) ≠ 0 := by omega
    exact_mod_cast h0
  have hval : (0 : ℚ) + (((end_time : Int) - (start_time : Int) : Int) : ℚ)
      / (((end_time : Int) - (start_time : Int) : Int) : ℚ) * session_energy
      = session_energy := by
    rw [div_self hD]
    ring
  rw [hval] at hrun
  have hsum : session_energy = (a.map Prod.snd).sum :=
    session_energy_loop_sum session_energy start_time end_time
      (end_time - time_floor start_time) _ _ _ _ _ _ _ le_rfl hrun (by simp)
  refine ⟨c, a, ?_, hsum.symm⟩
  unfold update_history_with_session_energy
  rw [hrun]
  norm_num

/-- Evaluation of the Mode B loop on the session of claim C1
(2023-12-01T10:00Z to 10:20Z, energy 2.0, empty prior consumption). -/
theorem c1_loop_eval :
    session_energy_loop 2 (utcTime 738854 10 0) (utcTime 738854 10 20)
      (utcTime 738854 10 0) [] [] 0
    = .ok ([(utcTime 738854 10 0, 3/2), (utcTime 738854 10 15, 1/2)],
           [(utcTime 738854 10 0, 3/2), (utcTime 738854 10 15, 1/2)], 2) := by
  rw [session_energy_loop_step _ _ _ _ _ _ _ (by norm_num [utcTime]) (by norm_num [utcTime]),
    session_energy_loop_step _ _ _ _ _ _ _ (by norm_num [utcTime]) (by norm_num [utcTime]),
    session_energy_loop_done _ _ _ _ _ _ _ (by norm_num [utcTime])]
  norm_num [utcTime, duration, dictSet]

/-- Evaluation of `_update_history_with_session_energy` on the session
of claim C1 (2023-12-01T10:00Z to 10:20Z, energy 2.0). -/
theorem c1_update_eval :
    update_history_with_session_energy ⟨"u", "f", []⟩ 2
        (utcTime 738854 10 0) (utcTime 738854 10 20)
      = .ok (⟨"u", "f", [(utcTime 738854 10 0, 3/2), (utcTime 738854 10 15, 1/2)]⟩,
             [(utcTime 738854 10 0, 3/2), (utcTime 738854 10 15, 1/2)]) := by
  rw [update_history_with_session_energy]
  have hfl : time_floor (utcTime 738854 10 0) = utcTime 738854 10 0 := by decide
  have hcons : (⟨"u", "f", []⟩ : UserChargeHistory).consumption = [] := rfl
  rw [hfl, hcons, c1_loop_eval]
  norm_num

/-- C1 fails on the code: for the Mode B session 10:00Z..10:20Z with
energy 2.0, the ratio of bucket 10:00 is its clamped overlap 15 min
over the 20 min total, so the bucket receives 1.5, not the claimed 1.0
(and bucket 10:15 receives 0.5, not 1.0). -/
theorem C1_counterexample :
    update_history_with_session_energy ⟨"u", "f", []⟩ 2
        (utcTime 738854 10 0) (utcTime 738854 10 20)
      = .ok (⟨"u", "f", [(utcTime 738854 10 0, 3/2), (utcTime 738854 10 15, 1/2)]⟩,
             [(utcTime 738854 10 0, 3/2), (utcTime 738854 10 15, 1/2)]) ∧
    (3/2 : ℚ) ≠ 1 :=
  ⟨c1_update_eval, by norm_num⟩

/-- C1 as amended: the Mode B reconstruction of the session
2023-12-01T10:00Z..10:20Z with energy 2.0 produces exactly two buckets,
1.5 at 10:00Z (ratio 15/20) and 0.5 at 10:15Z (ratio 5/20). -/
theorem C1_amended :
    update_history_with_session_energy ⟨"u", "f", []⟩ 2
        (utcTime 738854 10 0) (utcTime 738854 10 20)
      = .ok (⟨"u", "f", [(utcTime 738854 10 0, 3/2), (utcTime 738854 10 15, 1/2)]⟩,
             [(utcTime 738854 10 0, 3/2), (utcTime 738854 10 15, 1/2)]) :=
  c1_update_eval

/-- C4: the code has no explicit zero-duration guard.  A Mode B session
with `startTime == endTime` not on a bucket boundary reaches the ratio
computation and propagates the raw division-by-zero failure; an aligned
one skips the loop and fails the energy assertion instead (for energy
1.0).  Neither path produces a reported error naming the condition. -/
theorem C4_zero_duration_failure :
    update_history_with_session_energy ⟨"u", "f", []⟩ 1
        (utcTime 738854 10 5) (utcTime 738854 10 5)
      = .error .zeroDivisionError ∧
    update_history_with_session_energy ⟨"u", "f", []⟩ 1
        (utcTime 738854 10 0) (utcTime 738854 10 0)
      = .error .assertionError := by
  constructor
  · rw [update_history_with_session_energy]
    rw [session_energy_loop_zdiv _ _ _ _ _ _ _ (by decide) (by decide)]
  · rw [update_history_with_session_energy]
    rw [session_energy_loop_done _ _ _ _ _ _ _ (by decide)]
    norm_num

/-- C3: whenever a session's reconstruction completes without raising —
Mode A with `EnergyDetails`, or Mode B with `startTime` strictly before
`endTime` — the energies assigned to buckets for that session sum to
the session's energy to within 0.0001 (the final assertion of both
update methods guarantees it). -/
theorem C3_energy_conservation :
    (∀ (history : UserChargeHistory) (energy_details : List EnergyDetail)
        (session_energy : ℚ) (updated : UserChargeHistory)
        (assigned : List (Nat × ℚ)),
        update_history_with_energy_details history energy_details session_energy
          = .ok (updated, assigned) →
        |session_energy - (assigned.map Prod.snd).sum| < 1 / 10000) ∧
    (∀ (history : UserChargeHistory) (session_energy : ℚ)
        (start_time end_time : Nat) (updated : UserChargeHistory)
        (assigned : List (Nat × ℚ)),
        start_time < end_time →
        update_history_with_session_energy history session_energy start_time end_time
          = .ok (updated, assigned) →
        |session_energy - (assigned.map Prod.snd).sum| < 1 / 10000) := by
  constructor
  · intro history details session_energy updated assigned hok
    unfold update_history_with_energy_details at hok
    cases hloop : energy_details_loop details.length 0 details
        history.consumption [] 0 with
    | error e =>
      rw [hloop] at hok
      exact Except.noConfusion hok
    | ok v =>
      obtain ⟨cons, asg2, total⟩ := v
      rw [hloop] at hok
      by_cases hass : |session_energy - total| < 1 / 10000
      · have hok2 : (((⟨history.user_name, history.full_name, cons⟩ :
            UserChargeHistory), asg2) : UserChargeHistory × List (Nat × ℚ))
            = (updated, assigned) := by
          have hred : (if |session_energy - total| < 1 / 10000 then
              Except.ok ((⟨history.user_name, history.full_name, cons⟩ :
                UserChargeHistory), asg2)
              else Except.error ParseError.assertionError)
              = Except.ok (updated, assigned) := hok
          rw [if_pos hass] at hred
          exact Except.ok.inj hred
        have hasg : asg2 = assigned := congrArg Prod.snd hok2
        have htot : total = (assigned.map Prod.snd).sum := by
          rw [← hasg]
          exact energy_details_loop_sum details.length details 0
            history.consumption [] 0 cons asg2 total hloop (by simp)
        rwa [← htot]
      · have hred : (if |session_energy - total| < 1 / 10000 then
            Except.ok ((⟨history.user_name, history.full_name, cons⟩ :
              UserChargeHistory), asg2)
            else Except.error ParseError.assertionError)
            = Except.ok (updated, assigned) := hok
        rw [if_neg hass] at hred
        exact Except.noConfusion hred
  · intro history session_energy start_time end_time updated assigned hse hok
    unfold update_history_with_session_energy at hok
    cases hloop : session_energy_loop session_energy start_time end_time
        (time_floor start_time) history.consumption [] 0 with
    | error e =>
      rw [hloop] at hok
      exact Except.noConfusion hok
    | ok v =>
      obtain ⟨cons, asg2, total⟩ := v
      rw [hloop] at hok
      by_cases hass : |session_energy - total| < 1 / 10000
      · have hok2 : (((⟨history.user_name, history.full_name, cons⟩ :
            UserChargeHistory), asg2) : UserChargeHistory × List (Nat × ℚ))
            = (updated, assigned) := by
          have hred : (if |session_energy - total| < 1 / 10000 then
              Except.ok ((⟨history.user_name, history.full_name, cons⟩ :
                UserChargeHistory), asg2)
              else Except.error ParseError.assertionError)
              = Except.ok (updated, assigned) := hok
          rw [if_pos hass] at hred
          exact Except.ok.inj hred
        have hasg : asg2 = assigned := congrArg Prod.snd hok2
        have htot : total = (assigned.map Prod.snd).sum := by
          rw [← hasg]
          exact session_energy_loop_sum session_energy start_time end_time
            (end_time - time_floor start_time) _ _ _ _ _ _ _ le_rfl hloop (by simp)
        rwa [← htot]
      · have hred : (if |session_energy - total| < 1 / 10000 then
            Except.ok ((⟨history.user_name, history.full_name, cons⟩ :
              UserChargeHistory), asg2)
            else Except.error ParseError.assertionError)
            = Except.ok (updated, assigned) := hok
        rw [if_neg hass] at hred
        exact Except.noConfusion hred

/-- Bucket chosen for the sub-reading at position `i` of `n`, as the
spec words it: the floored timestamp for the last sub-reading, the
preceding 15-minute bucket otherwise. -/
def spec_bucket (n i : Nat) (d : EnergyDetail) : Nat :=
  if i == n - 1 then time_floor d.timestamp
  else time_floor d.timestamp - 900000000

/-- Spec-side description of Mode A starting at position `i`: keep the
strictly positive sub-readings and pair each with its bucket. -/
def spec_mode_a_buckets (n : Nat) : Nat → List EnergyDetail → List (Nat × ℚ)
  | _, [] => []
  | i, d :: rest =>
    if d.energy > 0 then
      (spec_bucket n i d, d.energy) :: spec_mode_a_buckets n (i + 1) rest
    else spec_mode_a_buckets n (i + 1) rest

/-- The Mode A loop's assigned pairs are exactly the spec-side list,
appended to whatever was already assigned. -/
theorem energy_details_loop_assigned (n : Nat) :
    ∀ (details : List EnergyDetail) (i : Nat) (cons assigned : List (Nat × ℚ))
      (total : ℚ) c a t1,
      energy_details_loop n i details cons assigned total = .ok (c, a, t1) →
      a = assigned ++ spec_mode_a_buckets n i details := by
  intro details
  induction details with
  | nil =>
    intro i cons assigned total c a t1 hok
    simp only [energy_details_loop, Except.ok.injEq, Prod.mk.injEq] at hok
    obtain ⟨rfl, rfl, rfl⟩ := hok
    simp [spec_mode_a_buckets]
  | cons d rest ih =>
    intro i cons assigned total c a t1 hok
    rw [energy_details_loop] at hok
    by_cases hpos : d.energy > 0
    · rw [if_pos hpos] at hok
      by_cases hcol : dictHasKey cons (if i == n - 1 then time_floor d.timestamp
          else time_floor d.timestamp - 900000000) = true
      · simp only [hcol, if_true] at hok
        exact Except.noConfusion hok
      · simp only [hcol, if_false, Bool.false_eq_true] at hok
        have hrec := ih (i + 1) _ _ _ _ _ _ hok
        rw [hrec]
        simp [spec_mode_a_buckets, spec_bucket, hpos]
    · rw [if_neg hpos] at hok
      have hrec := ih (i + 1) _ _ _ _ _ _ hok
      rw [hrec]
      simp [spec_mode_a_buckets, hpos]

/-- Mode A evaluation on the concrete session of claim C5: sub-readings
at 2023-12-07T22:15Z (1.0) and 22:30Z (1.5), session energy 2.5. -/
theorem c5_detail_eval :
    update_history_with_energy_details ⟨"u", "f", []⟩
      [⟨utcTime 738860 22 15, 1⟩, ⟨utcTime 738860 22 30, 3/2⟩] (5/2)
    = .ok (⟨"u", "f", [(utcTime 738860 22 0, 1), (utcTime 738860 22 30, 3/2)]⟩,
           [(utcTime 738860 22 0, 1), (utcTime 738860 22 30, 3/2)]) := by
  norm_num [update_history_with_energy_details, energy_details_loop,
    dictHasKey, dictGet, dictSet, utcTime, time_floor]

/-- C5: in Mode A every strictly positive sub-reading at position `i`
among `n` is assigned to `floor(timestamp)` when `i = n-1` and to
`floor(timestamp)` minus 15 minutes otherwise, non-positive sub-readings
being skipped; on the concrete session of the claim this gives buckets
22:00Z with 1.0 and 22:30Z with 1.5. -/
theorem C5_mode_a_buckets :
    (∀ (history : UserChargeHistory) (energy_details : List EnergyDetail)
        (session_energy : ℚ) (updated : UserChargeHistory)
        (assigned : List (Nat × ℚ)),
        update_history_with_energy_details history energy_details session_energy
          = .ok (updated, assigned) →
        assigned = spec_mode_a_buckets energy_details.length 0 energy_details) ∧
    update_history_with_energy_details ⟨"u", "f", []⟩
        [⟨utcTime 738860 22 15, 1⟩, ⟨utcTime 738860 22 30, 3/2⟩] (5/2)
      = .ok (⟨"u", "f", [(utcTime 738860 22 0, 1), (utcTime 738860 22 30, 3/2)]⟩,
             [(utcTime 738860 22 0, 1), (utcTime 738860 22 30, 3/2)]) := by
  constructor
  · intro history details session_energy updated assigned hok
    unfold update_history_with_energy_details at hok
    cases hloop : energy_details_loop details.length 0 details
        history.consumption [] 0 with
    | error e =>
      rw [hloop] at hok
      exact Except.noConfusion hok
    | ok v =>
      obtain ⟨cons, asg2, total⟩ := v
      rw [hloop] at hok
      by_cases hass : |session_energy - total| < 1 / 10000
      · have hok2 : (((⟨history.user_name, history.full_name, cons⟩ :
            UserChargeHistory), asg2) : UserChargeHistory × List (Nat × ℚ))
            = (updated, assigned) := by
          have hred : (if |session_energy - total| < 1 / 10000 then
              Except.ok ((⟨history.user_name, history.full_name, cons⟩ :
                UserChargeHistory), asg2)
              else Except.error ParseError.assertionError)
              = Except.ok (updated, assigned) := hok
          rw [if_pos hass] at hred
          exact Except.ok.inj hred
        have hasg : asg2 = assigned := congrArg Prod.snd hok2
        rw [← hasg]
        have := energy_details_loop_assigned details.length details 0
          history.consumption [] 0 cons asg2 total hloop
        simpa using this
      · have hred : (if |session_energy - total| < 1 / 10000 then
            Except.ok ((⟨history.user_name, history.full_name, cons⟩ :
              UserChargeHistory), asg2)
            else Except.error ParseError.assertionError)
            = Except.ok (updated, assigned) := hok
        rw [if_neg hass] at hred
        exact Except.noConfusion hred
  · exact c5_detail_eval

theorem C5_mode_a_buckets_witness :
    update_history_with_energy_details ⟨"u", "f", []⟩
        [⟨utcTime 738860 22 15, 1⟩, ⟨utcTime 738860 22 30, 3/2⟩] (5/2)
      = .ok (⟨"u", "f", [(utcTime 738860 22 0, 1), (utcTime 738860 22 30, 3/2)]⟩,
             [(utcTime 738860 22 0, 1), (utcTime 738860 22 30, 3/2)]) ∧
    [(utcTime 738860 22 0, (1 : ℚ)), (utcTime 738860 22 30, 3/2)]
      = spec_mode_a_buckets
          ([⟨utcTime 738860 22 15, 1⟩, ⟨utcTime 738860 22 30, (3:ℚ)/2⟩] :
            List EnergyDetail).length 0
          [⟨utcTime 738860 22 15, 1⟩, ⟨utcTime 738860 22 30, 3/2⟩] :=
  ⟨c5_detail_eval,
   C5_mode_a_buckets.1 ⟨"u", "f", []⟩ _ (5/2)
     ⟨"u", "f", [(utcTime 738860 22 0, 1), (utcTime 738860 22 30, 3/2)]⟩
     _ c5_detail_eval⟩

theorem C3_energy_conservation_witness :
    (update_history_with_energy_details ⟨"u", "f", []⟩
        [⟨utcTime 738860 22 15, 1⟩, ⟨utcTime 738860 22 30, 3/2⟩] (5/2)
      = .ok (⟨"u", "f", [(utcTime 738860 22 0, 1), (utcTime 738860 22 30, 3/2)]⟩,
             [(utcTime 738860 22 0, 1), (utcTime 738860 22 30, 3/2)]) ∧
     |(5/2 : ℚ) - (([(utcTime 738860 22 0, (1 : ℚ)),
         (utcTime 738860 22 30, 3/2)]).map Prod.snd).sum| < 1 / 10000) ∧
    (utcTime 738854 10 0 < utcTime 738854 10 20 ∧
     |(2 : ℚ) - (([(utcTime 738854 10 0, (3 : ℚ)/2),
         (utcTime 738854 10 15, 1/2)]).map Prod.snd).sum| < 1 / 10000) :=
  ⟨⟨c5_detail_eval,
    C3_energy_conservation.1 ⟨"u", "f", []⟩ _ (5/2)
      ⟨"u", "f", [(utcTime 738860 22 0, 1), (utcTime 738860 22 30, 3/2)]⟩
      _ c5_detail_eval⟩,
   ⟨by decide,
    C3_energy_conservation.2 ⟨"u", "f", []⟩ 2 (utcTime 738854 10 0)
      (utcTime 738854 10 20)
      ⟨"u", "f", [(utcTime 738854 10 0, 3/2), (utcTime 738854 10 15, 1/2)]⟩
      _ (by decide) c1_update_eval⟩⟩

theorem wrap_key_errors_key {α : Type} (id k : String) :
    wrap_key_errors (α := α) id (.error (.keyError k))
      = .error (.wrappedError ("Error with id " ++ id)) := rfl

theorem wrap_key_errors_ok {α : Type} (id : String) (x : α) :
    wrap_key_errors id (.ok x) = .ok x := rfl

theorem wrap_key_errors_runtime {α : Type} (id msg : String) :
    wrap_key_errors (α := α) id (.error (.runtimeError msg))
      = .error (.runtimeError msg) := rfl

theorem process_item_user (result : List (String × UserChargeHistory))
    (item : SessionItem) (user_name : String)
    (hu : item.userUserName = some user_name) :
    process_item result item
      = wrap_key_errors (item_id item) (process_user result item user_name) := by
  rw [process_item, hu]

theorem process_item_anon (result : List (String × UserChargeHistory))
    (item : SessionItem) (hu : item.userUserName = none) :
    process_item result item = process_anonymous result item := by
  rw [process_item, hu]

theorem process_anonymous_pos (result : List (String × UserChargeHistory))
    (item : SessionItem) (energy : ℚ) (he : item.energy = some energy)
    (hpos : energy > 0) :
    process_anonymous result item
      = .error (.runtimeError ("Found charging session " ++ item_id item
          ++ " without user identification!")) := by
  rw [process_anonymous, he]
  dsimp only []
  rw [if_pos hpos]

theorem process_anonymous_zero (result : List (String × UserChargeHistory))
    (item : SessionItem) (energy : ℚ) (he : item.energy = some energy)
    (hnpos : ¬ energy > 0) :
    process_anonymous result item = .ok result := by
  rw [process_anonymous, he]
  dsimp only []
  rw [if_neg hnpos]

theorem process_user_no_full_name (result : List (String × UserChargeHistory))
    (item : SessionItem) (user_name : String)
    (hf : item.userFullName = none) :
    process_user result item user_name = .error (.keyError "UserFullName") := by
  rw [process_user, hf]

theorem process_user_ok (result : List (String × UserChargeHistory))
    (item : SessionItem) (user_name full_name : String) (session_energy : ℚ)
    (updated : UserChargeHistory × List (Nat × ℚ))
    (hf : item.userFullName = some full_name)
    (he : item.energy = some session_energy)
    (hd : dispatch_session ((dictGet result user_name).getD
        ⟨user_name, full_name, []⟩) item session_energy = .ok updated) :
    process_user result item user_name
      = .ok (dictSet result user_name updated.1) := by
  rw [process_user, hf, he]
  dsimp only []
  rw [hd]

theorem process_user_err (result : List (String × UserChargeHistory))
    (item : SessionItem) (user_name full_name : String) (session_energy : ℚ)
    (e : ParseError)
    (hf : item.userFullName = some full_name)
    (he : item.energy = some session_energy)
    (hd : dispatch_session ((dictGet result user_name).getD
        ⟨user_name, full_name, []⟩) item session_energy = .error e) :
    process_user result item user_name = .error e := by
  rw [process_user, hf, he]
  dsimp only []
  rw [hd]

theorem dispatch_session_details (history : UserChargeHistory)
    (item : SessionItem) (session_energy : ℚ) (ed : List EnergyDetail)
    (hd : item.energyDetails = some ed) :
    dispatch_session history item session_energy
      = update_history_with_energy_details history ed session_energy := by
  rw [dispatch_session, hd]

theorem dispatch_session_fallback (history : UserChargeHistory)
    (item : SessionItem) (session_energy : ℚ) (s e : Nat)
    (hd : item.energyDetails = none) (hs : item.startDateTime = some s)
    (he : item.endDateTime = some e) :
    dispatch_session history item session_energy
      = update_history_with_session_energy history session_energy
          (fallback_utc s) (fallback_utc e) := by
  rw [dispatch_session, hd, hs, he]

theorem dispatch_session_no_start (history : UserChargeHistory)
    (item : SessionItem) (session_energy : ℚ)
    (hd : item.energyDetails = none) (hs : item.startDateTime = none) :
    dispatch_session history item session_energy
      = .error (.keyError "StartDateTime") := by
  rw [dispatch_session, hd, hs]

theorem parse_loop_cons_ok (item : SessionItem) (rest : List SessionItem)
    (result result1 : List (String × UserChargeHistory))
    (h : process_item result item = .ok result1) :
    parse_loop (item :: rest) result = parse_loop rest result1 := by
  rw [parse_loop, h]

theorem parse_loop_cons_err (item : SessionItem) (rest : List SessionItem)
    (result : List (String × UserChargeHistory)) (e : ParseError)
    (h : process_item result item = .error e) :
    parse_loop (item :: rest) result = .error e := by
  rw [parse_loop, h]

theorem parse_loop_nil (result : List (String × UserChargeHistory)) :
    parse_loop [] result = .ok result := rfl

/-- First Mode B fixture session: user `u`, 10:00Z..10:15Z, energy 1. -/
def overwrite_item_1 : SessionItem :=
  ⟨some "s1", some "u", some "Full Name", some 1, none,
   some (utcTime 738854 10 0), some (utcTime 738854 10 15)⟩

/-- Second Mode B fixture session: same user and the same 15-minute
window as the first, energy 3, so it writes the very same bucket. -/
def overwrite_item_2 : SessionItem :=
  ⟨some "s2", some "u", some "Full Name", some 3, none,
   some (utcTime 738854 10 0), some (utcTime 738854 10 15)⟩

theorem c2_loop_eval_1 :
    session_energy_loop 1 (utcTime 738854 10 0) (utcTime 738854 10 15)
      (utcTime 738854 10 0) [] [] 0
    = .ok ([(utcTime 738854 10 0, 1)], [(utcTime 738854 10 0, 1)], 1) := by
  rw [session_energy_loop_step _ _ _ _ _ _ _ (by norm_num [utcTime]) (by norm_num [utcTime]),
    session_energy_loop_done _ _ _ _ _ _ _ (by norm_num [utcTime])]
  norm_num [utcTime, duration, dictSet]

theorem c2_update_eval_1 :
    update_history_with_session_energy ⟨"u", "Full Name", []⟩ 1
        (utcTime 738854 10 0) (utcTime 738854 10 15)
      = .ok (⟨"u", "Full Name", [(utcTime 738854 10 0, 1)]⟩,
             [(utcTime 738854 10 0, 1)]) := by
  rw [update_history_with_session_energy]
  have hfl : time_floor (utcTime 738854 10 0) = utcTime 738854 10 0 := by decide
  have hcons : (⟨"u", "Full Name", []⟩ : UserChargeHistory).consumption = [] := rfl
  rw [hfl, hcons, c2_loop_eval_1]
  norm_num

theorem c2_loop_eval_2 :
    session_energy_loop 3 (utcTime 738854 10 0) (utcTime 738854 10 15)
      (utcTime 738854 10 0) [(utcTime 738854 10 0, 1)] [] 0
    = .ok ([(utcTime 738854 10 0, 3)], [(utcTime 738854 10 0, 3)], 3) := by
  rw [session_energy_loop_step _ _ _ _ _ _ _ (by norm_num [utcTime]) (by norm_num [utcTime]),
    session_energy_loop_done _ _ _ _ _ _ _ (by norm_num [utcTime])]
  norm_num [utcTime, duration, dictSet]

/-- The second fixture session's bucket write silently overwrites the
value 1 that the first session stored at bucket 10:00Z. -/
theorem c2_update_eval_2 :
    update_history_with_session_energy
        ⟨"u", "Full Name", [(utcTime 738854 10 0, 1)]⟩ 3
        (utcTime 738854 10 0) (utcTime 738854 10 15)
      = .ok (⟨"u", "Full Name", [(utcTime 738854 10 0, 3)]⟩,
             [(utcTime 738854 10 0, 3)]) := by
  rw [update_history_with_session_energy]
  have hfl : time_floor (utcTime 738854 10 0) = utcTime 738854 10 0 := by decide
  have hcons : (⟨"u", "Full Name", [(utcTime 738854 10 0, 1)]⟩ :
      UserChargeHistory).consumption = [(utcTime 738854 10 0, 1)] := rfl
  rw [hfl, hcons, c2_loop_eval_2]
  norm_num

theorem c2_item_eval_1 :
    process_item [] overwrite_item_1
      = .ok [("u", ⟨"u", "Full Name", [(utcTime 738854 10 0, 1)]⟩)] := by
  have hd : dispatch_session ((dictGet ([] : List (String × UserChargeHistory))
        "u").getD ⟨"u", "Full Name", []⟩) overwrite_item_1 1
      = .ok (⟨"u", "Full Name", [(utcTime 738854 10 0, 1)]⟩,
             [(utcTime 738854 10 0, 1)]) := by
    have hhist : ((dictGet ([] : List (String × UserChargeHistory))
        "u").getD ⟨"u", "Full Name", []⟩ : UserChargeHistory)
        = ⟨"u", "Full Name", []⟩ := rfl
    rw [hhist, dispatch_session_fallback _ _ _ (utcTime 738854 10 0)
      (utcTime 738854 10 15) rfl rfl rfl]
    exact c2_update_eval_1
  rw [process_item_user [] overwrite_item_1 "u" rfl,
    process_user_ok [] overwrite_item_1 "u" "Full Name" 1 _ rfl rfl hd,
    wrap_key_errors_ok]
  rfl

theorem c2_item_eval_2 :
    process_item [("u", ⟨"u", "Full Name", [(utcTime 738854 10 0, 1)]⟩)]
      overwrite_item_2
      = .ok [("u", ⟨"u", "Full Name", [(utcTime 738854 10 0, 3)]⟩)] := by
  have hd : dispatch_session ((dictGet
        [("u", (⟨"u", "Full Name", [(utcTime 738854 10 0, 1)]⟩ : UserChargeHistory))]
        "u").getD ⟨"u", "Full Name", []⟩) overwrite_item_2 3
      = .ok (⟨"u", "Full Name", [(utcTime 738854 10 0, 3)]⟩,
             [(utcTime 738854 10 0, 3)]) := by
    have hhist : ((dictGet
        [("u", (⟨"u", "Full Name", [(utcTime 738854 10 0, 1)]⟩ : UserChargeHistory))]
        "u").getD ⟨"u", "Full Name", []⟩ : UserChargeHistory)
        = ⟨"u", "Full Name", [(utcTime 738854 10 0, 1)]⟩ := rfl
    rw [hhist, dispatch_session_fallback _ _ _ (utcTime 738854 10 0)
      (utcTime 738854 10 15) rfl rfl rfl]
    exact c2_update_eval_2
  rw [process_item_user _ overwrite_item_2 "u" rfl,
    process_user_ok _ overwrite_item_2 "u" "Full Name" 3 _ rfl rfl hd,
    wrap_key_errors_ok]
  rfl

/-- C2 fails on the code: two Mode B sessions of the same user covering
the same bucket do not raise; the parse completes and the second
session's write silently replaces the first one's value 1 with 3. -/
theorem C2_counterexample :
    parse [overwrite_item_1, overwrite_item_2]
      = .ok [("u", ⟨"u", "Full Name", [(utcTime 738854 10 0, 3)]⟩)] ∧
    process_item [] overwrite_item_1
      = .ok [("u", ⟨"u", "Full Name", [(utcTime 738854 10 0, 1)]⟩)] := by
  refine ⟨?_, c2_item_eval_1⟩
  rw [parse, parse_loop_cons_ok _ _ _ _ c2_item_eval_1,
    parse_loop_cons_ok _ _ _ _ c2_item_eval_2, parse_loop_nil]
  rfl

/-- C2 as amended: only Mode A checks for an existing bucket key and
raises (a bare `RuntimeError`); a Mode B write to an existing key is a
plain dict assignment that silently overwrites, as the fixture of two
identical Mode B windows shows. -/
theorem C2_amended :
    (∀ (n i : Nat) (d : EnergyDetail) (rest : List EnergyDetail)
        (cons assigned : List (Nat × ℚ)) (total : ℚ),
        d.energy > 0 →
        dictHasKey cons (if i == n - 1 then time_floor d.timestamp
            else time_floor d.timestamp - 900000000) = true →
        energy_details_loop n i (d :: rest) cons assigned total
          = .error (.runtimeError "")) ∧
    parse [overwrite_item_1, overwrite_item_2]
      = .ok [("u", ⟨"u", "Full Name", [(utcTime 738854 10 0, 3)]⟩)] := by
  refine ⟨energy_details_loop_collision, ?_⟩
  rw [parse, parse_loop_cons_ok _ _ _ _ c2_item_eval_1,
    parse_loop_cons_ok _ _ _ _ c2_item_eval_2, parse_loop_nil]
  rfl

theorem C2_amended_witness :
    (0 : ℚ) < (⟨utcTime 738860 22 15, 2⟩ : EnergyDetail).energy ∧
    dictHasKey [(utcTime 738860 22 15, (1 : ℚ))]
      (if (0 : Nat) == 1 - 1 then
        time_floor (⟨utcTime 738860 22 15, (2 : ℚ)⟩ : EnergyDetail).timestamp
       else time_floor (⟨utcTime 738860 22 15, (2 : ℚ)⟩ :
         EnergyDetail).timestamp - 900000000) = true ∧
    energy_details_loop 1 0 [⟨utcTime 738860 22 15, 2⟩]
      [(utcTime 738860 22 15, 1)] [] 0 = .error (.runtimeError "") :=
  ⟨by norm_num, by decide,
   C2_amended.1 1 0 ⟨utcTime 738860 22 15, 2⟩ [] [(utcTime 738860 22 15, 1)]
     [] 0 (by norm_num) (by decide)⟩

/-- C8: a session with no `UserUserName` raises the descriptive
`RuntimeError` naming the session id (or the sentinel) when its energy
is positive, and is silently skipped — the running result map is
returned unchanged and the parse loop moves on — when its energy is
zero. -/
theorem C8_anonymous_sessions :
    ∀ (result : List (String × UserChargeHistory)) (item : SessionItem)
      (energy : ℚ),
      item.userUserName = none → item.energy = some energy →
      ((energy > 0 → process_item result item
          = .error (.runtimeError ("Found charging session " ++ item_id item
              ++ " without user identification!"))) ∧
       (energy = 0 → process_item result item = .ok result ∧
          ∀ rest : List SessionItem,
            parse_loop (item :: rest) result = parse_loop rest result)) := by
  intro result item energy hu he
  constructor
  · intro hpos
    rw [process_item_anon _ _ hu, process_anonymous_pos _ _ _ he hpos]
  · intro hzero
    have hok : process_item result item = .ok result := by
      rw [process_item_anon _ _ hu,
        process_anonymous_zero _ _ _ he (by rw [hzero]; norm_num)]
    exact ⟨hok, fun rest => parse_loop_cons_ok _ _ _ _ hok⟩

/-- Anonymous fixture with positive energy (must raise). -/
def anon_pos_item : SessionItem :=
  ⟨some "s9", none, none, some 1, none, none, none⟩

/-- Anonymous fixture with zero energy (must be skipped). -/
def anon_zero_item : SessionItem :=
  ⟨some "s0", none, none, some 0, none, none, none⟩

theorem C8_anonymous_sessions_witness :
    process_item [] anon_pos_item
      = .error (.runtimeError ("Found charging session "
          ++ item_id anon_pos_item ++ " without user identification!")) ∧
    process_item [] anon_zero_item = .ok [] ∧
    parse_loop [anon_zero_item] [] = parse_loop [] [] :=
  ⟨(C8_anonymous_sessions [] anon_pos_item 1 rfl rfl).1 (by norm_num),
   ((C8_anonymous_sessions [] anon_zero_item 0 rfl rfl).2 rfl).1,
   ((C8_anonymous_sessions [] anon_zero_item 0 rfl rfl).2 rfl).2 []⟩

/-- C10: the default argument of `result.get(user_name, ...)` is
evaluated eagerly, so `UserFullName` is read for every session carrying
`UserUserName` — also when the user's history already exists in
`result` — and a session lacking it aborts the parse with the wrapped
error naming that session's id. -/
theorem C10_full_name_required :
    ∀ (result : List (String × UserChargeHistory)) (item : SessionItem)
      (user_name : String),
      item.userUserName = some user_name → item.userFullName = none →
      process_item result item
        = .error (.wrappedError ("Error with id " ++ item_id item)) := by
  intro result item user_name hu hf
  rw [process_item_user _ _ _ hu, process_user_no_full_name _ _ _ hf,
    wrap_key_errors_key]

/-- Fixture for C10: second session of user `u`, no `UserFullName`. -/
def no_full_name_item : SessionItem :=
  ⟨some "s2", some "u", none, some 1, none, none, none⟩

theorem C10_full_name_required_witness :
    process_item [("u", ⟨"u", "Full Name", [(utcTime 738854 10 0, 1)]⟩)]
      no_full_name_item
      = .error (.wrappedError ("Error with id " ++ item_id no_full_name_item)) :=
  C10_full_name_required
    [("u", ⟨"u", "Full Name", [(utcTime 738854 10 0, 1)]⟩)]
    no_full_name_item "u" rfl rfl

/-- First Mode A fixture session for the collision document. -/
def collision_item_1 : SessionItem :=
  ⟨some "s1", some "u", some "Full Name", some 1,
   some [⟨utcTime 738860 22 15, 1⟩], none, none⟩

/-- Second Mode A fixture session: same user and the same sub-reading
bucket 22:15Z, so its write collides with the first session's. -/
def collision_item_2 : SessionItem :=
  ⟨some "s2", some "u", some "Full Name", some 2,
   some [⟨utcTime 738860 22 15, 2⟩], none, none⟩

theorem c9_detail_eval_1 :
    update_history_with_energy_details ⟨"u", "Full Name", []⟩
      [⟨utcTime 738860 22 15, 1⟩] 1
    = .ok (⟨"u", "Full Name", [(utcTime 738860 22 15, 1)]⟩,
           [(utcTime 738860 22 15, 1)]) := by
  norm_num [update_history_with_energy_details, energy_details_loop,
    dictHasKey, dictGet, dictSet, utcTime, time_floor]

/-- The second collision session hits the occupied 22:15Z bucket and
raises the bare `RuntimeError` with no message. -/
theorem c9_detail_eval_2 :
    update_history_with_energy_details
      ⟨"u", "Full Name", [(utcTime 738860 22 15, 1)]⟩
      [⟨utcTime 738860 22 15, 2⟩] 2
    = .error (.runtimeError "") := by
  norm_num [update_history_with_energy_details, energy_details_loop,
    dictHasKey, dictGet, dictSet, utcTime, time_floor]

theorem c9_item_eval_1 :
    process_item [] collision_item_1
      = .ok [("u", ⟨"u", "Full Name", [(utcTime 738860 22 15, 1)]⟩)] := by
  have hd : dispatch_session ((dictGet ([] : List (String × UserChargeHistory))
        "u").getD ⟨"u", "Full Name", []⟩) collision_item_1 1
      = .ok (⟨"u", "Full Name", [(utcTime 738860 22 15, 1)]⟩,
             [(utcTime 738860 22 15, 1)]) := by
    have hhist : ((dictGet ([] : List (String × UserChargeHistory))
        "u").getD ⟨"u", "Full Name", []⟩ : UserChargeHistory)
        = ⟨"u", "Full Name", []⟩ := rfl
    rw [hhist, dispatch_session_details _ _ _ _ rfl]
    exact c9_detail_eval_1
  rw [process_item_user [] collision_item_1 "u" rfl,
    process_user_ok [] collision_item_1 "u" "Full Name" 1 _ rfl rfl hd,
    wrap_key_errors_ok]
  rfl

theorem c9_item_eval_2 :
    process_item [("u", ⟨"u", "Full Name", [(utcTime 738860 22 15, 1)]⟩)]
      collision_item_2
      = .error (.runtimeError "") := by
  have hd : dispatch_session ((dictGet
        [("u", (⟨"u", "Full Name", [(utcTime 738860 22 15, 1)]⟩ : UserChargeHistory))]
        "u").getD ⟨"u", "Full Name", []⟩) collision_item_2 2
      = .error (.runtimeError "") := by
    have hhist : ((dictGet
        [("u", (⟨"u", "Full Name", [(utcTime 738860 22 15, 1)]⟩ : UserChargeHistory))]
        "u").getD ⟨"u", "Full Name", []⟩ : UserChargeHistory)
        = ⟨"u", "Full Name", [(utcTime 738860 22 15, 1)]⟩ := rfl
    rw [hhist, dispatch_session_details _ _ _ _ rfl]
    exact c9_detail_eval_2
  rw [process_item_user _ collision_item_2 "u" rfl,
    process_user_err _ collision_item_2 "u" "Full Name" 2 _ rfl rfl hd,
    wrap_key_errors_runtime]

/-- C9 fails on the code: the bucket-collision abort is a bare
`raise RuntimeError` that is not a `KeyError`, so the `except KeyError`
wrapper never runs — the parse aborts with an empty message that names
no session id. -/
theorem C9_counterexample :
    parse [collision_item_1, collision_item_2]
      = .error (.runtimeError "") := by
  rw [parse, parse_loop_cons_ok _ _ _ _ c9_item_eval_1,
    parse_loop_cons_err _ _ _ _ c9_item_eval_2]

/-- C9 as amended: a `KeyError` for a missing required field raised
while a session is processed is wrapped into an error naming the
session's id (or the sentinel), but a bucket-key collision aborts the
parse with a bare message-less `RuntimeError` carrying no session id. -/
theorem C9_amended :
    (∀ (result : List (String × UserChargeHistory)) (item : SessionItem)
        (user_name full_name : String) (energy : ℚ),
        item.userUserName = some user_name →
        item.userFullName = some full_name →
        item.energy = some energy →
        item.energyDetails = none →
        item.startDateTime = none →
        process_item result item
          = .error (.wrappedError ("Error with id " ++ item_id item))) ∧
    (∀ (n i : Nat) (d : EnergyDetail) (rest : List EnergyDetail)
        (cons assigned : List (Nat × ℚ)) (total : ℚ),
        d.energy > 0 →
        dictHasKey cons (if i == n - 1 then time_floor d.timestamp
            else time_floor d.timestamp - 900000000) = true →
        energy_details_loop n i (d :: rest) cons assigned total
          = .error (.runtimeError "")) := by
  constructor
  · intro result item user_name full_name energy hu hf he hd hs
    rw [process_item_user _ _ _ hu,
      process_user_err _ _ _ _ _ _ hf he
        (dispatch_session_no_start _ _ _ hd hs),
      wrap_key_errors_key]
  · exact energy_details_loop_collision

/-- Fixture for the C9 witness: Mode B session missing `StartDateTime`. -/
def no_start_item : SessionItem :=
  ⟨some "s3", some "u", some "Full Name", some 1, none, none,
   some (utcTime 738854 10 15)⟩

theorem C9_amended_witness :
    process_item [] no_start_item
      = .error (.wrappedError ("Error with id " ++ item_id no_start_item)) ∧
    energy_details_loop 1 0 [⟨utcTime 738860 22 15, 2⟩]
      [(utcTime 738860 22 15, 1)] [] 0 = .error (.runtimeError "") :=
  ⟨C9_amended.1 [] no_start_item "u" "Full Name" 1 rfl rfl rfl rfl rfl,
   C9_amended.2 1 0 ⟨utcTime 738860 22 15, 2⟩ [] [(utcTime 738860 22 15, 1)]
     [] 0 (by norm_num) (by decide)⟩
